import Mathlib

/-!
Verification of the declarative-pipelines command framework.

The Python sources under src/ are shallowly embedded below:

* pure string scanning replaces the `re` module: every regex used by the
  code (all of the shape literal / digit-run / lazy-dot-gap) is modelled by
  an explicit leftmost-match scanner that is provably equivalent to the
  backtracking semantics on these patterns, because in each pattern a
  maximal digit or whitespace run is followed by a character outside the
  class, so greedy matching never needs to backtrack;
* Python exceptions are values of `PyError` inside `Except`;
* the ambient world (filesystem, spawned processes, git) is passed in as
  explicit functions, and the list of spawned process invocations is
  returned next to the result so that claims about "no process runs" are
  statable;
* Python numbers are `Int` (test counters, which can go negative) and `Rat`
  (coverage percentages; IEEE floats are modelled as exact rationals, which
  agrees with the code on every decimal literal the parsers accept up to
  float rounding).
-/

/-- True on the ASCII decimal digits, the characters matched by the digit
class of every pattern in the code. -/
def isDigitCh (c : Char) : Bool := '0' ≤ c && c ≤ '9'

/-- Numeric value of a digit string, as Python int() computes it on a
digit-only group. -/
def natOfDigits (l : List Char) : Nat :=
  l.foldl (fun n c => 10 * n + (c.toNat - '0'.toNat)) 0

/-- Greedy nonempty digit run: the `(\d+)` of every pattern in the code.
Returns the value and the remaining characters, or none if the text does
not start with a digit. -/
def parseDigits (l : List Char) : Option (Nat × List Char) :=
  let ds := l.takeWhile isDigitCh
  if ds.isEmpty then none else some (natOfDigits ds, l.dropWhile isDigitCh)

/-- Match a literal fragment of a pattern, returning the rest of the text. -/
def matchLit : List Char → List Char → Option (List Char)
  | [], l => some l
  | _ :: _, [] => none
  | p :: ps, c :: cs => if p == c then matchLit ps cs else none

/-- Does the needle occur verbatim at the head of the text? -/
def subAt : List Char → List Char → Bool
  | [], _ => true
  | _ :: _, [] => false
  | a :: as, b :: bs => a == b && subAt as bs

/-- Does the needle occur anywhere in the text? Models the Python
`needle in text` operator. -/
def hasSub (needle : List Char) : List Char → Bool
  | [] => needle.isEmpty
  | c :: t => subAt needle (c :: t) || hasSub needle t

/-- String version of `hasSub`: Python `needle in hay`. -/
def strContains (hay needle : String) : Bool := hasSub needle.data hay.data

/-- Helper for counting non-overlapping occurrences by a single
left-to-right sweep: skip is the number of characters still covered by
the previous match. -/
def countOccAux (needle : List Char) : Nat → List Char → Nat
  | _, [] => 0
  | skip + 1, _ :: t => countOccAux needle skip t
  | 0, c :: t =>
    if subAt needle (c :: t) && !needle.isEmpty then
      1 + countOccAux needle (needle.length - 1) t
    else
      countOccAux needle 0 t

/-- Number of non-overlapping occurrences of a nonempty needle, scanning
left to right: Python `str.count`. (On an empty needle the code never
calls it; this model returns 0.) -/
def countOcc (needle l : List Char) : Nat := countOccAux needle 0 l

/-- String version of `countOcc`: Python `hay.count(needle)`. -/
def strCount (hay needle : String) : Nat := countOcc needle.data hay.data

/-- Helper for non-overlapping replacement by a single left-to-right
sweep: skip counts characters already emitted as part of a replacement. -/
def replaceSubAux (needle repl : List Char) : Nat → List Char → List Char
  | _, [] => []
  | skip + 1, _ :: t => replaceSubAux needle repl skip t
  | 0, c :: t =>
    if subAt needle (c :: t) && !needle.isEmpty then
      repl ++ replaceSubAux needle repl (needle.length - 1) t
    else
      c :: replaceSubAux needle repl 0 t

/-- Replace every non-overlapping occurrence of a nonempty needle, scanning
left to right: Python `str.replace`. (The code only replaces the nonempty
needle "clean "; on an empty needle this model is the identity.) -/
def replaceSub (needle repl l : List Char) : List Char := replaceSubAux needle repl 0 l

/-- String version of `replaceSub`: Python `s.replace(needle, repl)`. -/
def strReplace (s needle repl : String) : String :=
  String.mk (replaceSub needle.data repl.data s.data)

/-- Leftmost-match search: try the pattern at every position from the left
and return the first success. Models `re.search` for the anchored pattern
matchers defined below. -/
def reSearch {α : Type} (pat : List Char → Option α) : List Char → Option α
  | [] => pat []
  | c :: t =>
    match pat (c :: t) with
    | some v => some v
    | none => reSearch pat t

/-- A raised Python exception: the class name (its category) and the
message `str(error)` (its description). Models src/core/base_command.py's
use of `type(error).__name__` and `str(error)`. -/
structure PyError where
  typeName : String
  descr : String
deriving DecidableEq, Repr

/-- Models src/core/base_command.py CommandResult: the Result Envelope every
operation returns. `α` is the operation-specific shape of output_data. -/
structure CommandResult (α : Type) where
  success : Bool
  message : String
  output_data : Option α := none
  error_details : Option String := none
deriving DecidableEq, Repr

/-- A fully resolved external command plus the directory it runs in. -/
structure Invocation where
  command : String
  cwd : String
deriving DecidableEq, Repr

/-- Exit code plus captured stdout and stderr of one spawned process:
what subprocess.run(..., capture_output=True, text=True) returns. -/
structure ProcessOutcome where
  exitCode : Int
  stdout : String
  stderr : String
deriving DecidableEq, Repr

/-- Models src/core/base_command.py BaseCommand.run: call execute inside
try/except; any raised exception becomes a failure envelope whose message
is "Command execution failed: " plus the exception class name and whose
error_details is str(error). The argument is the outcome of execute. -/
def BaseCommand.run {α : Type} (ex : Except PyError (CommandResult α)) :
    CommandResult α :=
  match ex with
  | .ok r => r
  | .error e =>
    { success := false
      message := "Command execution failed: " ++ e.typeName
      output_data := none
      error_details := some e.descr }

/-- Values a parameter dictionary can hold, as far as the embedded claims
need them: strings, booleans and numbers (Python int/float as exact
rationals). -/
inductive PValue where
  | pstr : String → PValue
  | pbool : Bool → PValue
  | pnum : Rat → PValue
deriving DecidableEq

/-- The parameters dictionary handed to a command constructor. Keys are
assumed unique, as in a Python dict; lookup takes the first binding. -/
abbrev ParamDict : Type := List (String × PValue)

/-- Python `key in self.parameters`. -/
def dictHas (d : ParamDict) (k : String) : Bool :=
  d.any (fun kv => kv.1 == k)

/-- Python `self.parameters.get(key)` returning None when absent. -/
def dictGet (d : ParamDict) (k : String) : Option PValue :=
  (d.find? (fun kv => kv.1 == k)).map (·.2)

/-- Python truthiness of a parameter value, used by the code's
`if value:` tests on looked-up parameters. -/
def pvTruthy : PValue → Bool
  | .pstr s => !(s == "")
  | .pbool b => b
  | .pnum q => !(q == 0)

/-- The required-key names absent from the dictionary, in declaration
order: the list comprehension of BaseCommand._require_parameters. -/
def missingParams (d : ParamDict) (names : List String) : List String :=
  names.filter (fun n => !dictHas d n)

/-- Models src/core/base_command.py BaseCommand._require_parameters: collect all
missing required keys and raise a single ValueError naming them, joined
with ", ". -/
def requireParameters (d : ParamDict) (names : List String) :
    Except PyError Unit :=
  let missing := missingParams d names
  if missing.isEmpty then .ok ()
  else .error
    { typeName := "ValueError"
      descr := "Missing required parameters: " ++ String.intercalate ", " missing }

/-- Parsed test metrics of src/commands/test_command.py
_parse_test_results. Counters are Python ints (the Maven/Gradle passed
count is computed by subtraction and can be negative, hence Int);
coverage is a percentage or None; duration is never assigned by the code. -/
structure TestResults where
  tests_total : Int
  tests_passed : Int
  tests_failed : Int
  tests_skipped : Int
  coverage_percentage : Option Rat
  duration_seconds : Option Rat
deriving DecidableEq, Repr

/-- The all-zero record every parse starts from. -/
def emptyTestResults : TestResults :=
  { tests_total := 0, tests_passed := 0, tests_failed := 0, tests_skipped := 0
    coverage_percentage := none, duration_seconds := none }

/-- The dictionary _check_coverage_threshold returns when coverage is
enabled. Numeric rendering inside messages abstracts Python float/int
formatting by Rat's ToString. -/
structure CoverageCheck where
  enabled : Bool
  passed : Bool
  threshold : Rat
  actual : Option Rat
  message : String
deriving DecidableEq, Repr

/-- The TestCommand parameters after the _get_parameter lookups: each
field carries the documented default used when the key is absent from the
parameters dictionary. -/
structure TestParams where
  test_framework : String
  project_path : String
  test_command : Option String := none
  test_pattern : Option String := none
  coverage_enabled : Bool := false
  coverage_threshold : Rat := 80
  fail_fast : Bool := false
  parallel_execution : Bool := false
  test_arguments : String := ""
deriving DecidableEq, Repr

/-- The keys of TestCommand.DEFAULT_TEST_COMMANDS, in insertion order. -/
def supportedTestFrameworks : List String :=
  ["maven", "gradle", "pytest", "jest", "gotest"]

/-- TestCommand.DEFAULT_TEST_COMMANDS lookup (total; only called on
validated framework names, the final branch is unreachable there). -/
def defaultTestCommand (fw : String) : String :=
  if fw == "maven" then "mvn test"
  else if fw == "gradle" then "./gradlew test"
  else if fw == "pytest" then "pytest"
  else if fw == "jest" then "npm test"
  else if fw == "gotest" then "go test ./..."
  else ""

/-- Python truthiness of an optional-string parameter (None and the empty
string are falsy). -/
def optStrTruthy : Option String → Bool
  | some s => !(s == "")
  | none => false

/-- Models src/commands/test_command.py TestCommand._prepare_test_command:
start from the custom command or the framework default and append the
coverage, fail-fast, parallelism, pattern and extra-argument pieces, each
gated on a substring test of the command built so far. -/
def TestCommand.prepareTestCommand (p : TestParams) : String :=
  let base := match p.test_command with
    | some c => c
    | none => defaultTestCommand p.test_framework
  let base :=
    if p.coverage_enabled then
      if strContains base "maven" then "mvn test jacoco:report"
      else if strContains base "gradle" then base ++ " jacocoTestReport"
      else if strContains base "pytest" then
        base ++ " --cov --cov-report=term --cov-report=html"
      else if strContains base "jest" then base ++ " --coverage"
      else base
    else base
  let base :=
    if p.fail_fast then
      if strContains base "pytest" then base ++ " -x"
      else if strContains base "maven" then base ++ " -DfailIfNoTests=false"
      else base
    else base
  let base :=
    if p.parallel_execution then
      if strContains base "pytest" then base ++ " -n auto"
      else if strContains base "maven" then base ++ " -T 1C"
      else if strContains base "jest" then base ++ " --maxWorkers=50%"
      else base
    else base
  let base :=
    if optStrTruthy p.test_pattern then
      let pat := p.test_pattern.getD ""
      if strContains base "pytest" then base ++ " -k \"" ++ pat ++ "\""
      else if strContains base "maven" then base ++ " -Dtest=" ++ pat
      else base
    else base
  if !(p.test_arguments == "") then base ++ " " ++ p.test_arguments else base

/-- The one invocation TestCommand._execute_tests spawns. -/
def TestCommand.testInvocation (p : TestParams) : Invocation :=
  { command := TestCommand.prepareTestCommand p, cwd := p.project_path }

/-- TestCommand._execute_tests never inspects the exit code: it returns
stdout concatenated with stderr for parsing (the tolerant policy). -/
def TestCommand.rawOutput (p : TestParams) (w : Invocation → ProcessOutcome) :
    String :=
  let o := w (TestCommand.testInvocation p)
  o.stdout ++ o.stderr

/-- Anchored matcher for the Maven/Gradle summary pattern
"Tests run: (d+), Failures: (d+), Errors: (d+), Skipped: (d+)". -/
def mavenSummaryAt (l : List Char) : Option (Nat × Nat × Nat × Nat) := do
  let l1 ← matchLit "Tests run: ".data l
  let (run, l2) ← parseDigits l1
  let l3 ← matchLit ", Failures: ".data l2
  let (f, l4) ← parseDigits l3
  let l5 ← matchLit ", Errors: ".data l4
  let (e, l6) ← parseDigits l5
  let l7 ← matchLit ", Skipped: ".data l6
  let (s, _) ← parseDigits l7
  pure (run, f, e, s)

/-- Anchored matcher for a digit run followed by a literal, the shape of
the pytest patterns "(d+) passed" / "(d+) failed" / "(d+) skipped". -/
def numLitAt (lit : List Char) (l : List Char) : Option Nat := do
  let (n, l1) ← parseDigits l
  let _ ← matchLit lit l1
  pure n

/-- A lazy ".*?" gap (dot does not cross a newline) followed by a digit
run and a literal: used for "TOTAL.*?(d+)%" and the "(d+) total" tail of
the Jest pattern. The gap grows one character at a time, so the first,
shortest completion wins, exactly as the lazy quantifier behaves. -/
def lazyGapNumLit (lit : List Char) : List Char → Option Nat
  | [] => none
  | c :: t =>
    match numLitAt lit (c :: t) with
    | some n => some n
    | none => if c == '\n' then none else lazyGapNumLit lit t

/-- True on the ASCII whitespace matched by a Python "\s" class. -/
def isPyWs (c : Char) : Bool :=
  c == ' ' || c == '\t' || c == '\n' || c == '\r' || c == '\x0b' || c == '\x0c'

/-- Greedy nonempty whitespace run: the "\s+" pieces of the Jest patterns
(always followed by a non-whitespace character, so greedy is exact). -/
def wsPlus (l : List Char) : Option (List Char) :=
  let ws := l.takeWhile isPyWs
  if ws.isEmpty then none else some (l.dropWhile isPyWs)

/-- Anchored matcher for the Jest counts pattern
"Tests:\s+(d+) passed.*?(d+) total". -/
def jestCountsAt (l : List Char) : Option (Nat × Nat) := do
  let l1 ← matchLit "Tests:".data l
  let l2 ← wsPlus l1
  let (p, l3) ← parseDigits l2
  let l4 ← matchLit " passed".data l3
  let t ← lazyGapNumLit " total".data l4
  pure (p, t)

/-- Anchored matcher for the Jest coverage pattern
"All files\s+\|\s+([d.]+)": yields the captured digits-and-dots group. -/
def jestCovAt (l : List Char) : Option (List Char) := do
  let l1 ← matchLit "All files".data l
  let l2 ← wsPlus l1
  let l3 ← matchLit "|".data l2
  let l4 ← wsPlus l3
  let g := l4.takeWhile (fun c => isDigitCh c || c == '.')
  if g.isEmpty then none else pure g

/-- Python float() applied to a nonempty group of digits and dots: legal
with at most one dot and at least one digit, otherwise it raises
ValueError (modelled as none). The value is exact where Python rounds to
the nearest IEEE double. -/
def ratOfDotted (g : List Char) : Option Rat :=
  if 1 < (g.filter (fun c => c == '.')).length || (g.filter isDigitCh).isEmpty then
    none
  else
    let ip := g.takeWhile (fun c => !(c == '.'))
    let fp := (g.dropWhile (fun c => !(c == '.'))).drop 1
    some ((natOfDigits ip : Rat) + (natOfDigits fp : Rat) / ((10 : Rat) ^ fp.length))

/-- Models src/commands/test_command.py TestCommand._parse_test_results: the
per-framework output grammar. Only the Jest branch can raise (float() on
a malformed coverage group); every other missing pattern defaults to the
zero record. -/
def TestCommand.parseTestResults (fw : String) (out : String) :
    Except PyError TestResults :=
  if fw == "maven" || fw == "gradle" then
    match reSearch mavenSummaryAt out.data with
    | some (run, f, e, s) =>
      .ok { tests_total := (run : Int)
            tests_passed := (run : Int) - (f : Int) - (e : Int) - (s : Int)
            tests_failed := (f : Int) + (e : Int)
            tests_skipped := (s : Int)
            coverage_percentage := none, duration_seconds := none }
    | none => .ok emptyTestResults
  else if fw == "pytest" then
    let p := (reSearch (numLitAt " passed".data) out.data).getD 0
    let f := (reSearch (numLitAt " failed".data) out.data).getD 0
    let s := (reSearch (numLitAt " skipped".data) out.data).getD 0
    let cov := reSearch (fun l => (matchLit "TOTAL".data l).bind (lazyGapNumLit ['%'])) out.data
    .ok { tests_total := (p : Int) + (f : Int) + (s : Int)
          tests_passed := (p : Int), tests_failed := (f : Int), tests_skipped := (s : Int)
          coverage_percentage := cov.map (fun n => (n : Rat)), duration_seconds := none }
  else if fw == "jest" then
    let base := match reSearch jestCountsAt out.data with
      | some (p, t) =>
        { emptyTestResults with
            tests_passed := (p : Int), tests_total := (t : Int)
            tests_failed := (t : Int) - (p : Int) }
      | none => emptyTestResults
    match reSearch jestCovAt out.data with
    | none => .ok base
    | some g =>
      match ratOfDotted g with
      | some q => .ok { base with coverage_percentage := some q }
      | none =>
        .error { typeName := "ValueError"
                 descr := "could not convert string to float: '" ++ String.mk g ++ "'" }
  else if fw == "gotest" then
    if strContains out "PASS" then
      let k := strCount out "\tok\t"
      .ok { emptyTestResults with tests_passed := (k : Int), tests_total := (k : Int) }
    else if strContains out "FAIL" then
      .ok { emptyTestResults with tests_failed := 1, tests_total := 1 }
    else .ok emptyTestResults
  else .ok emptyTestResults

/-- Models src/commands/test_command.py TestCommand._check_coverage_threshold:
None when coverage is disabled; a passing check with an explanatory
message when no percentage was parsed; otherwise pass exactly when the
percentage reaches the threshold. -/
def TestCommand.checkCoverageThreshold (p : TestParams) (r : TestResults) :
    Option CoverageCheck :=
  if !p.coverage_enabled then none
  else
    match r.coverage_percentage with
    | none =>
      some { enabled := true, passed := true, threshold := p.coverage_threshold
             actual := none, message := "Coverage data not available" }
    | some pct =>
      let ok := decide (p.coverage_threshold ≤ pct)
      some { enabled := true, passed := ok, threshold := p.coverage_threshold
             actual := some pct
             message :=
               if ok then
                 "Coverage " ++ toString pct ++ "% meets threshold " ++
                   toString p.coverage_threshold ++ "%"
               else
                 "Coverage " ++ toString pct ++ "% below threshold " ++
                   toString p.coverage_threshold ++ "%" }

/-- Models src/commands/test_command.py TestCommand._generate_result_message. -/
def TestCommand.generateResultMessage (r : TestResults)
    (cov : Option CoverageCheck) : String :=
  let msg := "Tests completed: " ++ toString r.tests_passed ++ "/" ++
    toString r.tests_total ++ " passed"
  let msg := if 0 < r.tests_failed then
    msg ++ ", " ++ toString r.tests_failed ++ " failed" else msg
  let msg := if 0 < r.tests_skipped then
    msg ++ ", " ++ toString r.tests_skipped ++ " skipped" else msg
  match cov with
  | some c =>
    match c.actual with
    | some a => msg ++ " | Coverage: " ++ toString a ++ "%"
    | none => msg
  | none => msg

/-- The output_data dictionary TestCommand.execute builds. -/
structure TestData where
  test_framework : String
  project_path : String
  command_executed : String
  test_results : TestResults
  coverage_check : Option CoverageCheck
deriving DecidableEq, Repr

/-- The envelope TestCommand.execute returns for parsed results r:
success is "no failed tests and the coverage check, if any, passed";
error_details is never set on this path. -/
def TestCommand.envelopeFor (p : TestParams) (r : TestResults) :
    CommandResult TestData :=
  let cov := TestCommand.checkCoverageThreshold p r
  let testsOk := r.tests_failed == 0
  let covOk := match cov with
    | some c => c.passed
    | none => true
  { success := testsOk && covOk
    message := TestCommand.generateResultMessage r cov
    output_data := some
      { test_framework := p.test_framework
        project_path := p.project_path
        command_executed := TestCommand.prepareTestCommand p
        test_results := r
        coverage_check := cov }
    error_details := none }

/-- Models src/commands/test_command.py TestCommand.execute: spawn the test
command, parse the combined output (the exit code is never consulted),
check coverage and decide the envelope. The list records the spawned
invocations. -/
def TestCommand.executeT (p : TestParams) (w : Invocation → ProcessOutcome) :
    Except PyError (CommandResult TestData) × List Invocation :=
  let inv := TestCommand.testInvocation p
  match TestCommand.parseTestResults p.test_framework (TestCommand.rawOutput p w) with
  | .error e => (.error e, [inv])
  | .ok r => (.ok (TestCommand.envelopeFor p r), [inv])

/-- Rough rendering of a parameter value inside an error message. -/
def pvRender : PValue → String
  | .pstr s => s
  | .pbool b => if b then "True" else "False"
  | .pnum q => toString q

/-- Models src/commands/test_command.py TestCommand.validate_parameters, run by
the BaseCommand constructor: require the two keys, check the framework
name against DEFAULT_TEST_COMMANDS and check the project path exists
(the filesystem is the fsExists argument). -/
def TestCommand.validateParameters (d : ParamDict) (fsExists : String → Bool) :
    Except PyError Unit := do
  requireParameters d ["test_framework", "project_path"]
  let fwOk := match dictGet d "test_framework" with
    | some (.pstr s) => supportedTestFrameworks.contains s
    | _ => false
  if !fwOk then
    .error { typeName := "ValueError"
             descr := "Unsupported test framework: " ++
               pvRender ((dictGet d "test_framework").getD (.pstr "")) ++
               ". Supported frameworks: maven, gradle, pytest, jest, gotest" }
  else
    match dictGet d "project_path" with
    | some (.pstr path) =>
      if !fsExists path then
        .error { typeName := "ValueError"
                 descr := "Project path does not exist: " ++ path }
      else .ok ()
    | _ => .error { typeName := "TypeError", descr := "invalid project_path value" }

/-- The _get_parameter lookups of TestCommand gathered into a TestParams
record (string-valued where the code uses them as strings, truthiness for
the boolean flags, the documented defaults when absent). -/
def TestParams.ofDict (d : ParamDict) : TestParams :=
  { test_framework := match dictGet d "test_framework" with
      | some (.pstr s) => s
      | _ => ""
    project_path := match dictGet d "project_path" with
      | some (.pstr s) => s
      | _ => ""
    test_command := match dictGet d "test_command" with
      | some (.pstr s) => some s
      | _ => none
    test_pattern := match dictGet d "test_pattern" with
      | some (.pstr s) => some s
      | _ => none
    coverage_enabled := match dictGet d "coverage_enabled" with
      | some v => pvTruthy v
      | none => false
    coverage_threshold := match dictGet d "coverage_threshold" with
      | some (.pnum q) => q
      | _ => 80
    fail_fast := match dictGet d "fail_fast" with
      | some v => pvTruthy v
      | none => false
    parallel_execution := match dictGet d "parallel_execution" with
      | some v => pvTruthy v
      | none => false
    test_arguments := match dictGet d "test_arguments" with
      | some (.pstr s) => s
      | _ => "" }

/-- The caller boundary of src/commands/test_command.py main(): construct
the command (which runs validate_parameters and lets its exceptions
escape) and only then call run (which catches). The second component
lists the processes spawned. -/
def TestCommand.mainPipeline (d : ParamDict) (fsExists : String → Bool)
    (w : Invocation → ProcessOutcome) :
    Except PyError (CommandResult TestData) × List Invocation :=
  match TestCommand.validateParameters d fsExists with
  | .error e => (.error e, [])
  | .ok _ =>
    let pr := TestCommand.executeT (TestParams.ofDict d) w
    (.ok (BaseCommand.run pr.1), pr.2)

/-- Modelled from the claim's words, for comparison with the code: the
coverage check passes when the measured percentage reaches the threshold,
and a missing measurement counts as passing. -/
def covPassesSpec (p : TestParams) (r : TestResults) : Bool :=
  match r.coverage_percentage with
  | none => true
  | some pct => decide (p.coverage_threshold ≤ pct)

/-- Modelled from the claim's words, for comparison with the code: the
test envelope succeeds when no test failed and coverage checking is
disabled or passes. -/
def successSpec (p : TestParams) (r : TestResults) : Bool :=
  (r.tests_failed == 0) && (!p.coverage_enabled || covPassesSpec p r)

/-- The BuildCommand parameters after the _get_parameter lookups, with
the documented defaults. -/
structure BuildParams where
  build_tool : String
  project_path : String
  build_command : Option String := none
  skip_tests : Bool := false
  clean_before_build : Bool := true
  build_arguments : String := ""
deriving DecidableEq, Repr

/-- BuildCommand.DEFAULT_BUILD_COMMANDS lookup (total; only called on
validated tool names). -/
def defaultBuildCommand (tool : String) : String :=
  if tool == "maven" then "mvn clean install"
  else if tool == "gradle" then "./gradlew clean build"
  else if tool == "npm" then "npm run build"
  else if tool == "pip" then "pip install -e ."
  else if tool == "go" then "go build -o ./bin/app"
  else ""

/-- Models src/commands/build_command.py BuildCommand._prepare_build_command. -/
def BuildCommand.prepareBuildCommand (p : BuildParams) : String :=
  let base := match p.build_command with
    | some c => c
    | none => defaultBuildCommand p.build_tool
  let base :=
    if p.skip_tests then
      if strContains base "maven" then base ++ " -DskipTests"
      else if strContains base "gradle" then base ++ " -x test"
      else base
    else base
  let base :=
    if !p.clean_before_build then strReplace base "clean " "" else base
  if !(p.build_arguments == "") then base ++ " " ++ p.build_arguments else base

/-- The one invocation BuildCommand._execute_build spawns. -/
def BuildCommand.buildInvocation (p : BuildParams) : Invocation :=
  { command := BuildCommand.prepareBuildCommand p, cwd := p.project_path }

/-- The output_data dictionary BuildCommand.execute builds on success. -/
structure BuildData where
  build_tool : String
  project_path : String
  command_executed : String
  artifacts : List String
  build_output_lines : Nat
deriving DecidableEq, Repr

/-- Models src/commands/build_command.py BuildCommand.execute together with
_execute_build: spawn the build command; a non-zero exit raises
RuntimeError embedding the exit code and the captured stderr (the
non-tolerant policy: stdout is not embedded and nothing is parsed),
otherwise glob the artifacts (the ambient artifactsOf function, keyed by
tool and project path) and report success. -/
def BuildCommand.executeB (p : BuildParams) (w : Invocation → ProcessOutcome)
    (artifactsOf : String → String → List String) :
    Except PyError (CommandResult BuildData) × List Invocation :=
  let inv := BuildCommand.buildInvocation p
  let o := w inv
  if !(o.exitCode == 0) then
    (.error { typeName := "RuntimeError"
              descr := "Build failed with exit code " ++ toString o.exitCode ++
                "\nError output:\n" ++ o.stderr }, [inv])
  else
    let raw := o.stdout ++ o.stderr
    (.ok { success := true
           message := "Build completed successfully using " ++ p.build_tool
           output_data := some
             { build_tool := p.build_tool
               project_path := p.project_path
               command_executed := inv.command
               artifacts := artifactsOf p.build_tool p.project_path
               build_output_lines := countOcc ['\n'] raw.data + 1 }
           error_details := none }, [inv])

/-- Replace every exit code the world reports by n, leaving the captured
output untouched: used to state that a tolerant command ignores exit
codes. -/
def withExitCode (w : Invocation → ProcessOutcome) (n : Int) :
    Invocation → ProcessOutcome :=
  fun i => { exitCode := n, stdout := (w i).stdout, stderr := (w i).stderr }

/-- Anchored matcher for the Terraform plan summary pattern
"Plan: (d+) to add, (d+) to change, (d+) to destroy". -/
def planSummaryAt (l : List Char) : Option (Nat × Nat × Nat) := do
  let l1 ← matchLit "Plan: ".data l
  let (a, l2) ← parseDigits l1
  let l3 ← matchLit " to add, ".data l2
  let (c, l4) ← parseDigits l3
  let l5 ← matchLit " to change, ".data l4
  let (d, l6) ← parseDigits l5
  let _ ← matchLit " to destroy".data l6
  pure (a, c, d)

/-- The changes dictionary of TerraformCommand._parse_plan_changes. -/
structure PlanChanges where
  add : Nat
  change : Nat
  destroy : Nat
deriving DecidableEq, Repr

/-- Models src/commands/terraform_command.py TerraformCommand._parse_plan_changes:
first plan summary in the output, or all zeros when absent. -/
def TerraformCommand.parsePlanChanges (out : String) : PlanChanges :=
  match reSearch planSummaryAt out.data with
  | some (a, c, d) => { add := a, change := c, destroy := d }
  | none => { add := 0, change := 0, destroy := 0 }

/-- The has_changes flag the plan branch of TerraformCommand.execute
stores next to the parsed changes: any of the three counters positive. -/
def TerraformCommand.planHasChanges (out : String) : Bool :=
  let ch := TerraformCommand.parsePlanChanges out
  decide (0 < ch.add) || decide (0 < ch.change) || decide (0 < ch.destroy)

/-- The DockerCommand tagging parameters after the _get_parameter
lookups, with the documented defaults. -/
structure DockerParams where
  operation : String
  image_name : String
  tags : List String := ["latest"]
  auto_tag_commit : Bool := false
  auto_tag_branch : Bool := false
  auto_tag_date : Bool := false
deriving DecidableEq, Repr

/-- True on the characters the branch sanitizer keeps: the class
[a-zA-Z0-9._-] of the re.sub in _generate_all_tags. -/
def isTagSafeChar (c : Char) : Bool :=
  ('a' ≤ c && c ≤ 'z') || ('A' ≤ c && c ≤ 'Z') || ('0' ≤ c && c ≤ '9') ||
    c == '.' || c == '_' || c == '-'

/-- The re.sub of DockerCommand._generate_all_tags: every character
outside [a-zA-Z0-9._-] becomes a dash. -/
def sanitizeBranchName (s : String) : String :=
  String.mk (s.data.map (fun c => if isTagSafeChar c then c else '-'))

/-- Python s[:8]. -/
def strTake (n : Nat) (s : String) : String := String.mk (s.data.take n)

/-- Models src/commands/docker_command.py DockerCommand._generate_all_tags: the
explicit tags, then the commit tag, the sanitized branch tag and the date
tag, each appended only when its flag is on and its source is available
(git queries returning None, modelled as none, or an empty string are
silently skipped). -/
def DockerCommand.generateAllTags (p : DockerParams) (gitSha : Option String)
    (gitBranch : Option String) (dateTag : String) : List String :=
  let tags := p.tags
  let tags :=
    if p.auto_tag_commit then
      match gitSha with
      | some sha => if !(sha == "") then tags ++ ["commit-" ++ strTake 8 sha] else tags
      | none => tags
    else tags
  let tags :=
    if p.auto_tag_branch then
      match gitBranch with
      | some b =>
        if !(b == "") then tags ++ ["branch-" ++ sanitizeBranchName b] else tags
      | none => tags
    else tags
  if p.auto_tag_date then tags ++ [dateTag] else tags

/-- A leftmost-match search returns the unique value a pattern can
produce: if the pattern succeeds somewhere in the text and every position
where it succeeds yields the same value, the search yields that value. -/
theorem reSearch_unique {α : Type} (pat : List Char → Option α) (a : α) :
    ∀ l : List Char, (∃ i, pat (l.drop i) = some a) →
      (∀ i, ¬(pat (l.drop i) = none) → pat (l.drop i) = some a) →
      reSearch pat l = some a := by
  intro l
  induction l with
  | nil =>
    intro h1 _
    obtain ⟨i, hi⟩ := h1
    rw [List.drop_nil] at hi
    simpa [reSearch] using hi
  | cons c t ih =>
    intro h1 h2
    rcases hc : pat (c :: t) with _ | v
    · have hrec : reSearch pat (c :: t) = reSearch pat t := by
        simp [reSearch, hc]
      rw [hrec]
      apply ih
      · obtain ⟨i, hi⟩ := h1
        cases i with
        | zero => rw [List.drop_zero] at hi; rw [hc] at hi; cases hi
        | succ j => exact ⟨j, by rw [← List.drop_succ_cons]; exact hi⟩
      · intro i hi
        have := h2 (i + 1) (by rw [List.drop_succ_cons]; exact hi)
        rw [List.drop_succ_cons] at this
        exact this
    · have := h2 0 (by rw [List.drop_zero, hc]; simp)
      rw [List.drop_zero] at this
      simp [reSearch, hc] at this ⊢
      exact this

/-- C1 counterexample: with an empty parameter dictionary the validation
exception raised in the constructor escapes the caller-level pipeline as
an unhandled ValueError instead of being converted into a failure
envelope, refuting the claim that no exception ever propagates. -/
theorem validationErrorEscapes :
    TestCommand.mainPipeline [] (fun _ => false)
        (fun _ => { exitCode := 0, stdout := "", stderr := "" }) =
      (.error { typeName := "ValueError"
                descr := "Missing required parameters: test_framework, project_path" },
        []) := by
  rfl

/-- C1 (amended): exceptions raised during execute (assemble, invoke,
parse) are caught exactly once by BaseCommand.run and converted into a
failure envelope carrying the exception class name in the message and its
description as the error detail, and a successful execute is returned
unchanged; but an exception raised by validation, which runs in the
constructor, propagates to the caller unhandled and spawns no process. -/
theorem runCatchesExecuteErrorsOnly :
    (∀ (α : Type) (e : PyError),
      BaseCommand.run (α := α) (.error e) =
        { success := false
          message := "Command execution failed: " ++ e.typeName
          output_data := none
          error_details := some e.descr }) ∧
    (∀ (α : Type) (r : CommandResult α), BaseCommand.run (.ok r) = r) ∧
    (∀ (d : ParamDict) (fs : String → Bool) (w : Invocation → ProcessOutcome)
      (e : PyError),
      TestCommand.validateParameters d fs = .error e →
      TestCommand.mainPipeline d fs w = (.error e, [])) := by
  refine ⟨fun α e => rfl, fun α r => rfl, fun d fs w e h => ?_⟩
  unfold TestCommand.mainPipeline
  rw [h]

/-- Witness for the amended C1 at concrete inputs. -/
theorem runCatchesExecuteErrorsOnly_w :
    BaseCommand.run (α := Unit)
        (.error { typeName := "RuntimeError", descr := "boom" }) =
      { success := false, message := "Command execution failed: RuntimeError"
        output_data := none, error_details := some "boom" } ∧
    TestCommand.mainPipeline [("test_framework", PValue.pstr "pytest")]
        (fun _ => true) (fun _ => { exitCode := 0, stdout := "", stderr := "" }) =
      (.error { typeName := "ValueError"
                descr := "Missing required parameters: project_path" }, []) := by
  constructor
  · exact runCatchesExecuteErrorsOnly.1 Unit { typeName := "RuntimeError", descr := "boom" }
  · exact runCatchesExecuteErrorsOnly.2.2 _ _ _ _ (by rfl)

/-- C6: a parameter dictionary missing required keys makes
_require_parameters raise one single ValueError whose description lists
every missing key joined together, and the pipeline spawns no process
(validation happens in the constructor, before execute can run). -/
theorem missingKeysSingleError :
    (∀ (d : ParamDict) (names : List String), ¬(missingParams d names = []) →
      requireParameters d names = .error
        { typeName := "ValueError"
          descr := "Missing required parameters: " ++
            String.intercalate ", " (missingParams d names) }) ∧
    (∀ (d : ParamDict) (fs : String → Bool) (w : Invocation → ProcessOutcome),
      ¬(missingParams d ["test_framework", "project_path"] = []) →
      (TestCommand.mainPipeline d fs w).2 = [] ∧
      ∃ e, (TestCommand.mainPipeline d fs w).1 = .error e) := by
  have hreq : ∀ (d : ParamDict) (names : List String),
      ¬(missingParams d names = []) →
      requireParameters d names = .error
        { typeName := "ValueError"
          descr := "Missing required parameters: " ++
            String.intercalate ", " (missingParams d names) } := by
    intro d names h
    unfold requireParameters
    rw [if_neg]
    simpa [List.isEmpty_iff] using h
  refine ⟨hreq, fun d fs w h => ?_⟩
  have hv : TestCommand.validateParameters d fs = .error
      { typeName := "ValueError"
        descr := "Missing required parameters: " ++
          String.intercalate ", " (missingParams d ["test_framework", "project_path"]) } := by
    unfold TestCommand.validateParameters
    rw [hreq d _ h]
    rfl
  unfold TestCommand.mainPipeline
  rw [hv]
  exact ⟨rfl, _, rfl⟩

/-- Witness for C6 at a concrete dictionary missing one of the two keys,
and at the empty dictionary missing both (listed together in one error). -/
theorem missingKeysSingleError_w :
    ¬(missingParams [("project_path", PValue.pstr "/p")]
        ["test_framework", "project_path"] = []) ∧
    requireParameters [("project_path", PValue.pstr "/p")]
        ["test_framework", "project_path"] =
      .error { typeName := "ValueError"
               descr := "Missing required parameters: test_framework" } ∧
    requireParameters [] ["test_framework", "project_path"] =
      .error { typeName := "ValueError"
               descr := "Missing required parameters: test_framework, project_path" } ∧
    (TestCommand.mainPipeline [("project_path", PValue.pstr "/p")] (fun _ => true)
        (fun _ => { exitCode := 0, stdout := "", stderr := "" })).2 = [] := by
  refine ⟨by decide, ?_, ?_, ?_⟩
  · rw [missingKeysSingleError.1 [("project_path", PValue.pstr "/p")]
      ["test_framework", "project_path"] (by decide)]
    rfl
  · rw [missingKeysSingleError.1 [] ["test_framework", "project_path"] (by decide)]
    rfl
  · exact (missingKeysSingleError.2 [("project_path", PValue.pstr "/p")]
      (fun _ => true) (fun _ => { exitCode := 0, stdout := "", stderr := "" }) (by decide)).1

/-- A concrete test configuration for witnesses: pytest with coverage
checking enabled at the default threshold. -/
def pC2 : TestParams :=
  { test_framework := "pytest", project_path := "/proj", coverage_enabled := true }

/-- A world whose one test process prints one passed test and coverage 80. -/
def wC2a : Invocation → ProcessOutcome :=
  fun _ => { exitCode := 0, stdout := "1 passed\nTOTAL 80%", stderr := "" }

/-- A world whose one test process prints one passed test and coverage 79. -/
def wC2b : Invocation → ProcessOutcome :=
  fun _ => { exitCode := 1, stdout := "1 passed\nTOTAL 79%", stderr := "" }

/-- The metrics parsed from wC2a's output. -/
def rC2a : TestResults :=
  { tests_total := 1, tests_passed := 1, tests_failed := 0, tests_skipped := 0
    coverage_percentage := some ((80 : Nat) : Rat), duration_seconds := none }

/-- The metrics parsed from wC2b's output. -/
def rC2b : TestResults :=
  { tests_total := 1, tests_passed := 1, tests_failed := 0, tests_skipped := 0
    coverage_percentage := some ((79 : Nat) : Rat), duration_seconds := none }

/-- C2: whenever the test output parses, the envelope succeeds exactly
when the parsed failed count is zero and coverage checking is disabled or
passes, where the check passes precisely when the measured percentage
reaches the configured threshold (80 when the parameter is absent) and a
missing measurement counts as passing with the explanatory message
"Coverage data not available". -/
theorem testSuccessRule (p : TestParams) (w : Invocation → ProcessOutcome)
    (r : TestResults)
    (h : TestCommand.parseTestResults p.test_framework (TestCommand.rawOutput p w) =
      .ok r) :
    (TestCommand.executeT p w).1 = .ok (TestCommand.envelopeFor p r) ∧
    (TestCommand.envelopeFor p r).success = successSpec p r ∧
    (p.coverage_enabled = true → r.coverage_percentage = none →
      TestCommand.checkCoverageThreshold p r =
        some { enabled := true, passed := true, threshold := p.coverage_threshold
               actual := none, message := "Coverage data not available" }) := by
  refine ⟨?_, ?_, ?_⟩
  · unfold TestCommand.executeT
    rw [h]
  · unfold TestCommand.envelopeFor successSpec covPassesSpec
      TestCommand.checkCoverageThreshold
    cases hen : p.coverage_enabled <;> cases hcp : r.coverage_percentage <;>
      simp [hen, hcp]
  · intro he hn
    unfold TestCommand.checkCoverageThreshold
    rw [he, hn]
    rfl

/-- Witness for C2: a pytest run with one passed test and coverage
exactly at the default threshold of 80 succeeds (boundary inclusive),
while measured coverage 79 under the same configuration fails. -/
theorem testSuccessRule_w :
    TestCommand.parseTestResults pC2.test_framework (TestCommand.rawOutput pC2 wC2a) =
      .ok rC2a ∧
    (TestCommand.envelopeFor pC2 rC2a).success = true ∧
    TestCommand.parseTestResults pC2.test_framework (TestCommand.rawOutput pC2 wC2b) =
      .ok rC2b ∧
    (TestCommand.envelopeFor pC2 rC2b).success = false := by
  refine ⟨by rfl, ?_, by rfl, ?_⟩
  · rw [(testSuccessRule pC2 wC2a rC2a (by rfl)).2.1]
    decide
  · rw [(testSuccessRule pC2 wC2b rC2b (by rfl)).2.1]
    decide

/-- A concrete pytest configuration whose run fails on parsed metrics. -/
def pC3 : TestParams := { test_framework := "pytest", project_path := "/proj" }

/-- A world whose one test process reports two failed tests. -/
def wC3 : Invocation → ProcessOutcome :=
  fun _ => { exitCode := 1, stdout := "2 failed", stderr := "" }

/-- The metrics parsed from wC3's output. -/
def rC3 : TestResults :=
  { tests_total := 2, tests_passed := 0, tests_failed := 2, tests_skipped := 0
    coverage_percentage := none, duration_seconds := none }

/-- C3 counterexample: a test run whose parsed metrics make it fail
returns an envelope with success false and an empty error_details,
refuting the claim that every failure envelope carries a non-empty error
detail. -/
theorem failedRunHasNoErrorDetails :
    (TestCommand.executeT pC3 wC3).1 = .ok (TestCommand.envelopeFor pC3 rC3) ∧
    (TestCommand.envelopeFor pC3 rC3).success = false ∧
    (TestCommand.envelopeFor pC3 rC3).error_details = none := by
  refine ⟨by rfl, by decide, by decide⟩

/-- C3 (amended): envelopes produced by the top-level exception handler
have success false and error_details populated with the exception's
description, while a test run whose parsed metrics make it fail keeps
error_details empty and reports the full metrics in output_data. -/
theorem envelopeErrorDetailsRule :
    (∀ (α : Type) (e : PyError),
      (BaseCommand.run (α := α) (.error e)).success = false ∧
      (BaseCommand.run (α := α) (.error e)).error_details = some e.descr) ∧
    (∀ (p : TestParams) (w : Invocation → ProcessOutcome) (r : TestResults),
      TestCommand.parseTestResults p.test_framework (TestCommand.rawOutput p w) =
        .ok r →
      (TestCommand.executeT p w).1 = .ok (TestCommand.envelopeFor p r) ∧
      (TestCommand.envelopeFor p r).error_details = none ∧
      (TestCommand.envelopeFor p r).output_data = some
        { test_framework := p.test_framework
          project_path := p.project_path
          command_executed := TestCommand.prepareTestCommand p
          test_results := r
          coverage_check := TestCommand.checkCoverageThreshold p r }) := by
  refine ⟨fun α e => ⟨rfl, rfl⟩, fun p w r h => ⟨?_, rfl, rfl⟩⟩
  unfold TestCommand.executeT
  rw [h]

/-- Witness for the amended C3 at concrete inputs: a caught RuntimeError
and a concrete failing pytest run. -/
theorem envelopeErrorDetailsRule_w :
    (BaseCommand.run (α := Unit)
      (.error { typeName := "RuntimeError", descr := "exploded" })).error_details =
      some "exploded" ∧
    (TestCommand.envelopeFor pC3 rC3).output_data = some
      { test_framework := "pytest"
        project_path := "/proj"
        command_executed := "pytest"
        test_results := rC3
        coverage_check := none } := by
  constructor
  · exact (envelopeErrorDetailsRule.1 Unit
      { typeName := "RuntimeError", descr := "exploded" }).2
  · rw [(envelopeErrorDetailsRule.2 pC3 wC3 rC3 (by rfl)).2.2]
    decide

/-- Reduction of the parser on the Maven/Gradle branch. -/
theorem parse_mg_eq (fw : String) (hfw : fw = "maven" ∨ fw = "gradle")
    (out : String) :
    TestCommand.parseTestResults fw out =
      match reSearch mavenSummaryAt out.data with
      | some (run, f, e, s) =>
        .ok { tests_total := (run : Int)
              tests_passed := (run : Int) - (f : Int) - (e : Int) - (s : Int)
              tests_failed := (f : Int) + (e : Int)
              tests_skipped := (s : Int)
              coverage_percentage := none, duration_seconds := none }
      | none => .ok emptyTestResults := by
  rcases hfw with rfl | rfl <;> rfl

/-- Reduction of the parser on the pytest branch. -/
theorem parse_py_eq (out : String) :
    TestCommand.parseTestResults "pytest" out =
      .ok { tests_total :=
              ((reSearch (numLitAt " passed".data) out.data).getD 0 : Int) +
                ((reSearch (numLitAt " failed".data) out.data).getD 0 : Int) +
                ((reSearch (numLitAt " skipped".data) out.data).getD 0 : Int)
            tests_passed := ((reSearch (numLitAt " passed".data) out.data).getD 0 : Int)
            tests_failed := ((reSearch (numLitAt " failed".data) out.data).getD 0 : Int)
            tests_skipped := ((reSearch (numLitAt " skipped".data) out.data).getD 0 : Int)
            coverage_percentage :=
              (reSearch (fun l => (matchLit "TOTAL".data l).bind (lazyGapNumLit ['%']))
                out.data).map (fun n => (n : Rat))
            duration_seconds := none } := rfl

/-- Reduction of the parser on the Jest branch. -/
theorem parse_jest_eq (out : String) :
    TestCommand.parseTestResults "jest" out =
      (let base := match reSearch jestCountsAt out.data with
        | some (p, t) =>
          { emptyTestResults with
              tests_passed := (p : Int), tests_total := (t : Int)
              tests_failed := (t : Int) - (p : Int) }
        | none => emptyTestResults
      match reSearch jestCovAt out.data with
      | none => .ok base
      | some g =>
        match ratOfDotted g with
        | some q => .ok { base with coverage_percentage := some q }
        | none =>
          .error { typeName := "ValueError"
                   descr := "could not convert string to float: '" ++
                     String.mk g ++ "'" }) := rfl

/-- Reduction of the parser on the Go-test branch. -/
theorem parse_go_eq (out : String) :
    TestCommand.parseTestResults "gotest" out =
      (if strContains out "PASS" then
        .ok { emptyTestResults with
                tests_passed := (strCount out "\tok\t" : Int)
                tests_total := (strCount out "\tok\t" : Int) }
      else if strContains out "FAIL" then
        .ok { emptyTestResults with tests_failed := 1, tests_total := 1 }
      else .ok emptyTestResults) := rfl

/-- C4: for every supported framework, parsed metrics satisfy
total = passed + failed + skipped exactly; on the Maven/Gradle grammar
the failed count is failures plus errors and the passed count is
run minus failures minus errors minus skipped. -/
theorem parseTotalsConsistent :
    (∀ fw, fw ∈ supportedTestFrameworks → ∀ (out : String) (r : TestResults),
      TestCommand.parseTestResults fw out = .ok r →
      r.tests_total = r.tests_passed + r.tests_failed + r.tests_skipped) ∧
    (∀ fw, fw ∈ (["maven", "gradle"] : List String) →
      ∀ (out : String) (r : TestResults) (run f e s : Nat),
      reSearch mavenSummaryAt out.data = some (run, f, e, s) →
      TestCommand.parseTestResults fw out = .ok r →
      r.tests_failed = (f : Int) + (e : Int) ∧
      r.tests_passed = (run : Int) - (f : Int) - (e : Int) - (s : Int)) := by
  constructor
  · intro fw hfw out r h
    fin_cases hfw
    · rw [parse_mg_eq "maven" (Or.inl rfl)] at h
      rcases hm : reSearch mavenSummaryAt out.data with _ | ⟨run, f, e, s⟩ <;>
        rw [hm] at h <;> cases h
      · rfl
      · dsimp only
        omega
    · rw [parse_mg_eq "gradle" (Or.inr rfl)] at h
      rcases hm : reSearch mavenSummaryAt out.data with _ | ⟨run, f, e, s⟩ <;>
        rw [hm] at h <;> cases h
      · rfl
      · dsimp only
        omega
    · rw [parse_py_eq] at h
      cases h
      rfl
    · rw [parse_jest_eq] at h
      rcases hc : reSearch jestCountsAt out.data with _ | ⟨pp, tt⟩ <;>
          rw [hc] at h <;> dsimp only [emptyTestResults] at h
      · rcases hg : reSearch jestCovAt out.data with _ | g <;> rw [hg] at h <;>
            dsimp only at h
        · cases h
          rfl
        · rcases hq : ratOfDotted g with _ | q <;> rw [hq] at h <;>
              dsimp only at h <;> cases h
          rfl
      · rcases hg : reSearch jestCovAt out.data with _ | g <;> rw [hg] at h <;>
            dsimp only at h
        · cases h
          dsimp only
          omega
        · rcases hq : ratOfDotted g with _ | q <;> rw [hq] at h <;>
              dsimp only at h <;> cases h
          dsimp only
          omega
    · rw [parse_go_eq] at h
      split at h
      · cases h
        dsimp only [emptyTestResults]
        omega
      · split at h <;> cases h
        · rfl
        · rfl
  · intro fw hfw out r run f e s hm h
    fin_cases hfw
    · rw [parse_mg_eq "maven" (Or.inl rfl), hm] at h
      cases h
      exact ⟨rfl, rfl⟩
    · rw [parse_mg_eq "gradle" (Or.inr rfl), hm] at h
      cases h
      exact ⟨rfl, rfl⟩

/-- A concrete Maven summary line for the C4 witness. -/
def c4raw : String := "Tests run: 5, Failures: 1, Errors: 0, Skipped: 1"

/-- The metrics parsed from c4raw. -/
def rC4 : TestResults :=
  { tests_total := 5, tests_passed := 3, tests_failed := 1, tests_skipped := 1
    coverage_percentage := none, duration_seconds := none }

/-- Witness for C4 on a concrete Maven summary line. -/
theorem parseTotalsConsistent_w :
    TestCommand.parseTestResults "maven" c4raw = .ok rC4 ∧
    rC4.tests_total = rC4.tests_passed + rC4.tests_failed + rC4.tests_skipped ∧
    reSearch mavenSummaryAt c4raw.data = some (5, 1, 0, 1) ∧
    rC4.tests_failed = ((1 : Nat) : Int) + ((0 : Nat) : Int) ∧
    rC4.tests_passed =
      ((5 : Nat) : Int) - ((1 : Nat) : Int) - ((0 : Nat) : Int) - ((1 : Nat) : Int) := by
  refine ⟨by rfl, ?_, by decide, ?_, ?_⟩
  · exact parseTotalsConsistent.1 "maven" (by decide) c4raw rC4 (by rfl)
  · exact (parseTotalsConsistent.2 "maven" (by decide) c4raw rC4 5 1 0 1
      (by decide) (by rfl)).1
  · exact (parseTotalsConsistent.2 "maven" (by decide) c4raw rC4 5 1 0 1
      (by decide) (by rfl)).2

/-- C9: the Go-test parser only ever reports zero or one failed test, and
whenever the output contains "PASS" anywhere it reports zero failures and
a passed count equal to the number of tab-ok-tab package lines, even when
"FAIL" is also present. -/
theorem gotestParseRule (out : String) (r : TestResults)
    (h : TestCommand.parseTestResults "gotest" out = .ok r) :
    (r.tests_failed = 0 ∨ r.tests_failed = 1) ∧
    (strContains out "PASS" = true →
      r.tests_failed = 0 ∧ r.tests_passed = (strCount out "\tok\t" : Int)) := by
  rw [parse_go_eq] at h
  split at h
  next hp =>
    cases h
    exact ⟨Or.inl rfl, fun _ => ⟨rfl, rfl⟩⟩
  next hp =>
    split at h <;> cases h
    · exact ⟨Or.inr rfl, fun hc => absurd hc hp⟩
    · exact ⟨Or.inl rfl, fun hc => absurd hc hp⟩

/-- A mixed verbose Go-test output: one ok package, one failing package,
and a trailing PASS marker. -/
def c9raw : String := "\tok\tpkgA 0.01s\nFAIL pkgB\nPASS"

/-- The metrics parsed from c9raw. -/
def rC9 : TestResults :=
  { tests_total := 1, tests_passed := 1, tests_failed := 0, tests_skipped := 0
    coverage_percentage := none, duration_seconds := none }

/-- Witness for C9: the mixed output contains both PASS and FAIL, yet
parses to zero failures and one passed package. -/
theorem gotestParseRule_w :
    TestCommand.parseTestResults "gotest" c9raw = .ok rC9 ∧
    strContains c9raw "PASS" = true ∧
    strContains c9raw "FAIL" = true ∧
    rC9.tests_failed = 0 ∧
    rC9.tests_passed = (strCount c9raw "\tok\t" : Int) := by
  refine ⟨by rfl, by decide, by decide, ?_, ?_⟩
  · exact ((gotestParseRule c9raw rC9 (by rfl)).2 (by decide)).1
  · exact ((gotestParseRule c9raw rC9 (by rfl)).2 (by decide)).2

/-- The inconsistent Maven summary line of C10. -/
def c10raw : String := "Tests run: 1, Failures: 2, Errors: 0, Skipped: 0"

/-- The metrics parsed from c10raw: a negative passed count. -/
def rC10 : TestResults :=
  { tests_total := 1, tests_passed := -1, tests_failed := 2, tests_skipped := 0
    coverage_percentage := none, duration_seconds := none }

/-- C10: the Maven/Gradle parser computes passed as run minus failures
minus errors minus skipped with no clamping, so the inconsistent summary
"Tests run: 1, Failures: 2, Errors: 0, Skipped: 0" parses to a negative
passed count of -1. -/
theorem mavenNegativePassed :
    TestCommand.parseTestResults "maven" c10raw = .ok rC10 ∧
    rC10.tests_passed = -1 := ⟨by rfl, by decide⟩

/-- A concrete Maven build configuration for the C5 counterexample. -/
def pC5 : BuildParams := { build_tool := "maven", project_path := "/proj" }

/-- A world whose build process exits 1 with distinct stdout and stderr. -/
def wC5 : Invocation → ProcessOutcome :=
  fun _ => { exitCode := 1, stdout := "stdout-marker", stderr := "err-detail" }

/-- C5 counterexample: on a non-zero exit the failure envelope embeds only
the captured stderr; the captured output (stdout concatenated with
stderr) is not embedded in the error detail, because stdout is dropped. -/
theorem buildStdoutNotEmbedded :
    (BaseCommand.run (BuildCommand.executeB pC5 wC5 (fun _ _ => [])).1).success = false ∧
    (BaseCommand.run (BuildCommand.executeB pC5 wC5 (fun _ _ => [])).1).error_details =
      some "Build failed with exit code 1\nError output:\nerr-detail" ∧
    strContains "Build failed with exit code 1\nError output:\nerr-detail"
      ((wC5 (BuildCommand.buildInvocation pC5)).stdout ++
        (wC5 (BuildCommand.buildInvocation pC5)).stderr) = false ∧
    strContains "Build failed with exit code 1\nError output:\nerr-detail"
      (wC5 (BuildCommand.buildInvocation pC5)).stderr = true := by
  exact ⟨by rfl, by rfl, by decide, by decide⟩

/-- C5 (amended): under the non-tolerant policy a non-zero exit
immediately yields a failure envelope whose error detail embeds the exit
code and the captured stderr, with no output_data (no parsing or
artifact step runs); under the tolerant test policy the exit code has no
influence at all on the result, which is determined by the parsed
metrics of the captured output alone. -/
theorem exitCodePolicy :
    (∀ (p : BuildParams) (w : Invocation → ProcessOutcome)
      (fs : String → String → List String),
      ¬((w (BuildCommand.buildInvocation p)).exitCode = 0) →
      BaseCommand.run (BuildCommand.executeB p w fs).1 =
        { success := false
          message := "Command execution failed: RuntimeError"
          output_data := none
          error_details := some ("Build failed with exit code " ++
            toString (w (BuildCommand.buildInvocation p)).exitCode ++
            "\nError output:\n" ++ (w (BuildCommand.buildInvocation p)).stderr) } ∧
      (BuildCommand.executeB p w fs).2 = [BuildCommand.buildInvocation p]) ∧
    (∀ (p : TestParams) (w : Invocation → ProcessOutcome) (n : Int),
      TestCommand.executeT p (withExitCode w n) = TestCommand.executeT p w) := by
  constructor
  · intro p w fs h
    have hb : ((w (BuildCommand.buildInvocation p)).exitCode == 0) = false := by
      simpa using h
    constructor
    · unfold BuildCommand.executeB
      dsimp only
      rw [hb]
      rfl
    · unfold BuildCommand.executeB
      dsimp only
      rw [hb]
      rfl
  · intro p w n
    rfl

/-- A world whose build process exits 2. -/
def wC5w : Invocation → ProcessOutcome :=
  fun _ => { exitCode := 2, stdout := "compiling", stderr := "missing dep" }

/-- Witness for the amended C5 at concrete inputs: a failing build and a
test world whose exit code is rewritten without changing the result. -/
theorem exitCodePolicy_w :
    BaseCommand.run (BuildCommand.executeB pC5 wC5w (fun _ _ => [])).1 =
      { success := false
        message := "Command execution failed: RuntimeError"
        output_data := none
        error_details := some "Build failed with exit code 2\nError output:\nmissing dep" } ∧
    TestCommand.executeT pC3 (withExitCode wC3 0) = TestCommand.executeT pC3 wC3 := by
  constructor
  · have := (exitCodePolicy.1 pC5 wC5w (fun _ _ => []) (by decide)).1
    rw [this]
    rfl
  · exact exitCodePolicy.2 pC3 wC3 0

/-- A raw output with two plan summary lines; the claimed line is present
but is not the first match. -/
def c7raw : String :=
  "Plan: 5 to add, 0 to change, 0 to destroy\nPlan: 3 to add, 1 to change, 0 to destroy"

/-- C7 counterexample: a text that contains the line
"Plan: 3 to add, 1 to change, 0 to destroy" but parses to the counts of
the earlier plan line, refuting the universal claim that every text
containing that line yields 3, 1, 0. -/
theorem planFirstMatchWins :
    strContains c7raw "Plan: 3 to add, 1 to change, 0 to destroy" = true ∧
    TerraformCommand.parsePlanChanges c7raw = { add := 5, change := 0, destroy := 0 } ∧
    ¬(TerraformCommand.parsePlanChanges c7raw = { add := 3, change := 1, destroy := 0 }) := by
  exact ⟨by decide, by decide, by decide⟩

/-- C7 (amended): when the plan pattern matches somewhere in the output
with the counts 3, 1, 0 and every position where it matches yields those
same counts (in particular when "Plan: 3 to add, 1 to change, 0 to
destroy" is the only plan line), parsing yields add 3, change 1,
destroy 0 and the plan branch reports has_changes true; when the pattern
matches nowhere, parsing yields all zeros and has_changes false. -/
theorem planParseRule :
    (∀ out : String,
      (∃ i, planSummaryAt (out.data.drop i) = some (3, 1, 0)) →
      (∀ i, i < out.data.length → ¬(planSummaryAt (out.data.drop i) = none) →
        planSummaryAt (out.data.drop i) = some (3, 1, 0)) →
      TerraformCommand.parsePlanChanges out = { add := 3, change := 1, destroy := 0 } ∧
      TerraformCommand.planHasChanges out = true) ∧
    (∀ out : String, reSearch planSummaryAt out.data = none →
      TerraformCommand.parsePlanChanges out = { add := 0, change := 0, destroy := 0 } ∧
      TerraformCommand.planHasChanges out = false) := by
  constructor
  · intro out h1 h2
    have h2' : ∀ i, ¬(planSummaryAt (out.data.drop i) = none) →
        planSummaryAt (out.data.drop i) = some (3, 1, 0) := by
      intro i hi
      rcases Nat.lt_or_ge i out.data.length with hlt | hge
      · exact h2 i hlt hi
      · exact absurd (by rw [List.drop_eq_nil_of_le hge]; rfl) hi
    have hs := reSearch_unique planSummaryAt (3, 1, 0) out.data h1 h2'
    have hp : TerraformCommand.parsePlanChanges out =
        { add := 3, change := 1, destroy := 0 } := by
      unfold TerraformCommand.parsePlanChanges
      rw [hs]
    refine ⟨hp, ?_⟩
    unfold TerraformCommand.planHasChanges
    rw [hp]
    decide
  · intro out h
    have hp : TerraformCommand.parsePlanChanges out =
        { add := 0, change := 0, destroy := 0 } := by
      unfold TerraformCommand.parsePlanChanges
      rw [h]
    refine ⟨hp, ?_⟩
    unfold TerraformCommand.planHasChanges
    rw [hp]
    decide

/-- A raw output whose only plan line carries the counts 3, 1, 0. -/
def c7wraw : String := "xx Plan: 3 to add, 1 to change, 0 to destroy yy"

/-- Witness for the amended C7 at concrete inputs for both branches. -/
theorem planParseRule_w :
    TerraformCommand.parsePlanChanges c7wraw = { add := 3, change := 1, destroy := 0 } ∧
    TerraformCommand.planHasChanges c7wraw = true ∧
    TerraformCommand.parsePlanChanges "No changes." = { add := 0, change := 0, destroy := 0 } ∧
    TerraformCommand.planHasChanges "No changes." = false := by
  have ha := planParseRule.1 c7wraw ⟨3, by decide⟩ (by decide)
  have hb := planParseRule.2 "No changes." (by decide)
  exact ⟨ha.1, ha.2, hb.1, hb.2⟩

/-- C8: the branch-derived tag is the branch name with every character
outside [a-zA-Z0-9._-] replaced by a dash, placed after the "branch-"
required form; the name "feature/My Fix!" sanitizes to
"feature-My-Fix-"; and an unavailable branch name silently skips that one
derived tag (the result coincides with branch auto-tagging disabled)
rather than failing. -/
theorem branchTagRule (p : DockerParams) (sha : Option String) (d : String)
    (b : String) (hb : p.auto_tag_branch = true) (hne : ¬(b = "")) :
    ("branch-" ++ sanitizeBranchName b) ∈ DockerCommand.generateAllTags p sha (some b) d ∧
    sanitizeBranchName b =
      String.mk (b.data.map (fun c => if isTagSafeChar c then c else '-')) ∧
    sanitizeBranchName "feature/My Fix!" = "feature-My-Fix-" ∧
    (∀ (p2 : DockerParams) (sha2 : Option String) (d2 : String),
      DockerCommand.generateAllTags p2 sha2 none d2 =
        DockerCommand.generateAllTags { p2 with auto_tag_branch := false } sha2 none d2) := by
  refine ⟨?_, rfl, by decide, ?_⟩
  · have hne' : (b == "") = false := by simpa using hne
    unfold DockerCommand.generateAllTags
    rw [hb]
    dsimp only
    rw [hne']
    split <;> simp
  · intro p2 sha2 d2
    unfold DockerCommand.generateAllTags
    dsimp only
    cases hbr : p2.auto_tag_branch <;> simp [hbr]

/-- Witness for C8: the concrete branch name of the claim produces the
concrete tag, and the absent branch leaves only the explicit tags. -/
theorem branchTagRule_w :
    ("branch-feature-My-Fix-" : String) ∈ DockerCommand.generateAllTags
      { operation := "build", image_name := "app", auto_tag_branch := true }
      none (some "feature/My Fix!") "20260101" ∧
    sanitizeBranchName "feature/My Fix!" = "feature-My-Fix-" ∧
    DockerCommand.generateAllTags
      { operation := "build", image_name := "app", auto_tag_branch := true }
      none none "20260101" = ["latest"] := by
  have h := branchTagRule
    { operation := "build", image_name := "app", auto_tag_branch := true }
    none "20260101" "feature/My Fix!" rfl (by decide)
  refine ⟨?_, h.2.2.1, by decide⟩
  have hm := h.1
  rw [show ("branch-" ++ sanitizeBranchName "feature/My Fix!") =
    "branch-feature-My-Fix-" from by decide] at hm
  exact hm
